import Mathlib

/-!
Verification of the session-type core of `BorrowingFromSessionTypesPoC`
(`src/lib.rs`): the affine guard `PanicOnDrop`, the protocol step types
`Snd`/`Recv`/`End`/`Return`, the `send`/`recv` operations, the `Split`
trait, and the `RestrictLifetime` scope-restriction mechanism.

The Rust types are type-indexed (`Snd<T, Cont>` nests the continuation in
the type); here a session value is an inductive whose constructors mirror
the four step structs.  Payload values never live inside a step value in
the source (a step owns a channel endpoint, a continuation and a guard),
so the session datatype carries an endpoint identifier, a continuation and
a guard state, and the payload type appears only in the transport model.
-/

/-- State of a `PanicOnDrop` affine guard.  In the source the struct is a
unit value: `armed` models a live guard (its destructor will run when it
is dropped), `disarmed` models a guard consumed by `disarm`, which calls
`std::mem::forget` so the destructor never runs. -/
inductive GuardState where
  | armed
  | disarmed
deriving DecidableEq, Fintype

/-- `PanicOnDrop::disarm(self)` consumes the guard and forgets it
(src/lib.rs lines 44-48): afterwards the destructor cannot run. -/
def disarm : GuardState → GuardState :=
  fun _ => GuardState.disarmed

/-- The message of the fatal affine-violation failure raised by the guard
destructor (src/lib.rs line 55). -/
def affineViolationMsg : String := "Dropped a session before it was used"

/-- The fatal condition raised when a transport operation fails: in the
source this is the `.unwrap()` on the channel result (src/lib.rs lines 19
and 31). -/
def transportFailureMsg : String := "transport failure: channel closed"

/-- Destroying a guard (src/lib.rs lines 50-58, `Drop for PanicOnDrop`):
a forgotten (disarmed) guard has no destructor run at all; an armed
guard's destructor raises the affine-violation failure unless the current
context is already unwinding from an earlier failure
(`std::thread::panicking()`), in which case it stays silent to avoid
masking the original cause.  The result is the list of failures raised. -/
def dropGuard : GuardState → Bool → List String
  | GuardState.disarmed, _ => []
  | GuardState.armed, panicking => if panicking then [] else [affineViolationMsg]

/-- A session value: one participant's chain of remaining protocol
obligations (src/lib.rs lines 6-9).  `Snd ep cont g` mirrors
`Snd<T, Cont>(Sender<T>, Cont, PanicOnDrop)` with `ep` identifying the
wrapped channel endpoint; `Recv` mirrors `Recv<T, Cont>`; `End` is the
zero-sized terminal; `Return` is the zero-sized marker produced only by
splitting.  `End` and `Return` own no guard. -/
inductive Session where
  | Snd (ep : Nat) (cont : Session) (guard : GuardState)
  | Recv (ep : Nat) (cont : Session) (guard : GuardState)
  | End
  | Return
deriving DecidableEq

/-- `Snd::new(sender, cont)` wraps an endpoint and continuation with a
freshly armed guard (src/lib.rs lines 15-17). -/
def Snd.new (ep : Nat) (cont : Session) : Session :=
  Session.Snd ep cont GuardState.armed

/-- `Recv::new(receiver, cont)` wraps an endpoint and continuation with a
freshly armed guard (src/lib.rs lines 27-29). -/
def Recv.new (ep : Nat) (cont : Session) : Session :=
  Session.Recv ep cont GuardState.armed

/-- Dropping a session value in context `panicking`: Rust drops struct
fields in declaration order, so for `Snd`/`Recv` the continuation is
dropped before the node's own guard.  A failure raised by a guard starts
unwinding, so every later guard destructor sees `panicking = true`.
Returns the failures raised, in order, and the final panicking flag. -/
def dropSession : Session → Bool → List String × Bool
  | Session.Snd _ cont g, p =>
      let r := dropSession cont p
      let m := dropGuard g r.2
      (r.1 ++ m, r.2 || !m.isEmpty)
  | Session.Recv _ cont g, p =>
      let r := dropSession cont p
      let m := dropGuard g r.2
      (r.1 ++ m, r.2 || !m.isEmpty)
  | Session.End, p => ([], p)
  | Session.Return, p => ([], p)

/-- Number of outstanding `Snd`/`Recv` obligations in a session value. -/
def steps : Session → Nat
  | Session.Snd _ cont _ => steps cont + 1
  | Session.Recv _ cont _ => steps cont + 1
  | Session.End => 0
  | Session.Return => 0

/-- Number of armed guards owned by a session value. -/
def armedGuards : Session → Nat
  | Session.Snd _ cont GuardState.armed => armedGuards cont + 1
  | Session.Snd _ cont GuardState.disarmed => armedGuards cont
  | Session.Recv _ cont GuardState.armed => armedGuards cont + 1
  | Session.Recv _ cont GuardState.disarmed => armedGuards cont
  | Session.End => 0
  | Session.Return => 0

/-- Every `Snd`/`Recv` node of the session owns an armed guard: the
invariant every freshly built, as-yet-unused chain satisfies. -/
def wellArmed : Session → Bool
  | Session.Snd _ cont GuardState.armed => wellArmed cont
  | Session.Snd _ _ GuardState.disarmed => false
  | Session.Recv _ cont GuardState.armed => wellArmed cont
  | Session.Recv _ _ GuardState.disarmed => false
  | Session.End => true
  | Session.Return => true

/-- A chain as built by the construction API: `Snd`/`Recv` steps ending in
`End` (a `Return` marker appears only in values produced by splitting). -/
def isChain : Session → Bool
  | Session.Snd _ cont _ => isChain cont
  | Session.Recv _ cont _ => isChain cont
  | Session.End => true
  | Session.Return => false

/-- The session ends in the `Return` marker, i.e. it is a borrowed
prefix as produced by splitting. -/
def endsInRet : Session → Bool
  | Session.Snd _ cont _ => endsInRet cont
  | Session.Recv _ cont _ => endsInRet cont
  | Session.End => false
  | Session.Return => true

/-- One transport operation: a blocking send or a blocking receive on an
identified channel endpoint. -/
inductive Op where
  | send (ep : Nat)
  | recv (ep : Nat)
deriving DecidableEq

/-- The sequence of transport operations performed, in order, when a
session value is consumed to completion (each `Snd` performs one send on
its endpoint, each `Recv` one receive; `End` and `Return` perform
nothing). -/
def trace : Session → List Op
  | Session.Snd ep cont _ => Op.send ep :: trace cont
  | Session.Recv ep cont _ => Op.recv ep :: trace cont
  | Session.End => []
  | Session.Return => []

/-- The requested borrowed-prefix shape passed to `split`: in the source
it is the `Into` type parameter of the `Split` trait (src/lib.rs lines
62-69) — either the bare `Return` marker (a zero-length borrow) or one
`Snd`/`Recv` step followed by a sub-request. -/
inductive SplitReq where
  | ret
  | snd (r : SplitReq)
  | recv (r : SplitReq)
deriving DecidableEq

/-- The `Split` trait's `split` method, one equation per `impl`
(src/lib.rs lines 72-122):
* `End` against `Return` yields `(Return, End)` (lines 73-79);
* `Snd`/`Recv` against `Return` yields `(Return, self)` — an empty borrow
  that hands nothing away (lines 94-100, 116-122);
* `Snd ep cont g` against one `snd` step plus sub-request `r` splits
  `cont` against `r` into `(p, remainder)` and rebuilds
  `(Snd ep p g, remainder)`, relocating the original guard `g` onto the
  new prefix node (lines 84-91); symmetrically for `Recv` (lines 105-112).
`none` marks a shape combination for which no `impl` exists (in Rust such
a split does not type-check, so it has no runtime behavior at all). -/
def Session.split : Session → SplitReq → Option (Session × Session)
  | Session.End, SplitReq.ret => some (Session.Return, Session.End)
  | Session.Snd ep cont g, SplitReq.ret => some (Session.Return, Session.Snd ep cont g)
  | Session.Recv ep cont g, SplitReq.ret => some (Session.Return, Session.Recv ep cont g)
  | Session.Snd ep cont g, SplitReq.snd r =>
      match Session.split cont r with
      | some (p, rem) => some (Session.Snd ep p g, rem)
      | none => none
  | Session.Recv ep cont g, SplitReq.recv r =>
      match Session.split cont r with
      | some (p, rem) => some (Session.Recv ep p g, rem)
      | none => none
  | _, _ => none

/-- The request shape that peels exactly the first `k` steps of a
session: it copies the direction of each of the first `k` nodes and ends
in the `Return` marker. -/
def takeReq : Session → Nat → SplitReq
  | _, 0 => SplitReq.ret
  | Session.Snd _ cont _, Nat.succ k => SplitReq.snd (takeReq cont k)
  | Session.Recv _ cont _, Nat.succ k => SplitReq.recv (takeReq cont k)
  | _, Nat.succ _ => SplitReq.ret

/-- Modelled from the spec: the transport channel is out of scope for the
core (an external collaborator, realized by the kanal crate in the
source); the spec describes it as an opaque pipe with
`blocking_send(payload) -> Result<(), ClosedError>` and
`blocking_receive() -> Result<T, ClosedError>` and a closed/disconnected
failure mode.  The synchronous rendezvous is sequentialized as a FIFO
buffer: a send enqueues and its matching receive later dequeues. -/
structure Channel (α : Type) where
  buf : List α
  closed : Bool

/-- Result of a blocking transport send. -/
inductive SendRes (α : Type) where
  | ok (c : Channel α)
  | closedErr

/-- Modelled from the spec: `blocking_send` fails iff the channel is
closed, and otherwise enqueues the payload. -/
def Channel.sendVal {α : Type} (c : Channel α) (v : α) : SendRes α :=
  if c.closed then SendRes.closedErr else SendRes.ok ⟨c.buf ++ [v], false⟩

/-- Result of a blocking transport receive: `blocked` stands for waiting
indefinitely on an open channel with no pending message. -/
inductive RecvRes (α : Type) where
  | ok (v : α) (c : Channel α)
  | closedErr
  | blocked

/-- Modelled from the spec: `blocking_receive` fails iff the channel is
closed when the operation is attempted, blocks when nothing is pending,
and otherwise dequeues the oldest payload (FIFO per direction). -/
def Channel.recvVal {α : Type} (c : Channel α) : RecvRes α :=
  if c.closed then RecvRes.closedErr
  else
    match c.buf with
    | [] => RecvRes.blocked
    | v :: rest => RecvRes.ok v ⟨rest, false⟩

/-- The channels of the transport, one per endpoint identifier. -/
def Net (α : Type) : Type := Nat → Channel α

/-- Replace the channel behind one endpoint identifier. -/
def updateNet {α : Type} (net : Net α) (i : Nat) (c : Channel α) : Net α :=
  fun j => if j = i then c else net j

/-- Outcome of `Snd::send`: either the continuation with the final state
of the step's guard and the updated transport, or a fatal failure with
the failures observed (in order) and the guard's state at unwind time. -/
inductive SendOut (α : Type) where
  | ok (cont : Session) (guard : GuardState) (net : Net α)
  | panicked (msgs : List String) (guardAtUnwind : GuardState) (net : Net α)

/-- Outcome of `Recv::recv`: the received value and stored continuation
on success, a fatal failure, or blocking forever on an idle open
channel. -/
inductive RecvOut (α : Type) where
  | ok (v : α) (cont : Session) (guard : GuardState) (net : Net α)
  | panicked (msgs : List String) (guardAtUnwind : GuardState) (net : Net α)
  | blocked

/-- `Snd::send(self, payload)` (src/lib.rs lines 18-22): perform the
blocking transport send (`self.0.send(payload)`); on success `.unwrap()`
is a no-op, the guard is disarmed (`self.2.disarm()`), and the stored
continuation `self.1` is returned.  On transport failure `.unwrap()`
raises the fatal transport-failure condition and unwinding drops the
consumed step's fields — the continuation first, then the still-armed
guard — with the panicking flag set, so their destructors stay silent. -/
def Snd.send {α : Type} (net : Net α) (ep : Nat) (cont : Session)
    (g : GuardState) (payload : α) : SendOut α :=
  match (net ep).sendVal payload with
  | SendRes.ok c => SendOut.ok cont (disarm g) (updateNet net ep c)
  | SendRes.closedErr =>
      SendOut.panicked
        (transportFailureMsg :: ((dropSession cont true).1 ++ dropGuard g true)) g net

/-- `Recv::recv(self)` (src/lib.rs lines 30-34): perform the blocking
transport receive; on success disarm the guard and return the received
value paired with the stored continuation `self.1`; on transport failure
behave exactly as `Snd::send` does. -/
def Recv.recv {α : Type} (net : Net α) (ep : Nat) (cont : Session)
    (g : GuardState) : RecvOut α :=
  match (net ep).recvVal with
  | RecvRes.ok v c => RecvOut.ok v cont (disarm g) (updateNet net ep c)
  | RecvRes.closedErr =>
      RecvOut.panicked
        (transportFailureMsg :: ((dropSession cont true).1 ++ dropGuard g true)) g net
  | RecvRes.blocked => RecvOut.blocked

/-- `RestrictLifetime::restrict_to_ref` (src/lib.rs lines 126-158), one
equation per `impl`: `Return` rebuilds `Return` (lines 133-139); `Snd`
rebuilds `Snd(self.0, self.1.restrict_to_ref(reference), self.2)` (lines
142-148); symmetrically for `Recv` (lines 152-158).  There is no `impl`
for `End` (`none`): only borrowed sessions, ending in `Return`, are ever
restricted.  The reference argument only carries the lifetime and has no
runtime content, so it does not appear in the model. -/
def restrict_to_ref : Session → Option Session
  | Session.Return => some Session.Return
  | Session.Snd ep cont g =>
      match restrict_to_ref cont with
      | some c => some (Session.Snd ep c g)
      | none => none
  | Session.Recv ep cont g =>
      match restrict_to_ref cont with
      | some c => some (Session.Recv ep c g)
      | none => none
  | Session.End => none

/-- `restrict_with_type_info` (src/lib.rs lines 183-185) just calls into
`RestrictLifetime::restrict_to_ref`; its extra `Restricted` bound only
guides the trait solver and has no runtime content. -/
def restrict_with_type_info : Session → Option Session :=
  fun s => restrict_to_ref s

/-- A sample chain `Snd<u32, Recv<u32, End>>`, used as concrete input in
witness statements. -/
def demoChain : Session :=
  Session.Snd 0 (Session.Recv 1 Session.End GuardState.armed) GuardState.armed

/-- A transport whose every channel is closed, over `Nat` payloads. -/
def netClosedNat : Net Nat := fun _ => ⟨[], true⟩

/-- A transport whose every channel is open with one pending `7`. -/
def netOneNat : Net Nat := fun _ => ⟨[7], false⟩

/-- A transport whose every channel is open and idle. -/
def netEmpty (α : Type) : Net α := fun _ => ⟨[], false⟩

theorem dropGuard_true (g : GuardState) : dropGuard g true = [] := by
  cases g <;> rfl

theorem dropSession_true (s : Session) : dropSession s true = ([], true) := by
  induction s with
  | Snd ep cont g ih => cases g <;> simp [dropSession, ih, dropGuard]
  | Recv ep cont g ih => cases g <;> simp [dropSession, ih, dropGuard]
  | End => rfl
  | Return => rfl

theorem split_counts_aux :
    ∀ (s : Session) (r : SplitReq) (p rem : Session),
      Session.split s r = some (p, rem) →
      armedGuards p + armedGuards rem = armedGuards s ∧
      steps p + steps rem = steps s ∧
      (wellArmed s = true → wellArmed p = true ∧ wellArmed rem = true) := by
  intro s
  induction s with
  | Snd ep cont g ih =>
      intro r p rem h
      cases r with
      | ret =>
          simp [Session.split] at h
          obtain ⟨hp, hrem⟩ := h
          subst hp; subst hrem
          refine ⟨?_, ?_, fun hw => ⟨rfl, hw⟩⟩
          · simp [armedGuards]
          · simp [steps]
      | snd r =>
          rcases hs : Session.split cont r with _ | ⟨p', rem'⟩
          · simp [Session.split, hs] at h
          · simp [Session.split, hs] at h
            obtain ⟨hp, hrem⟩ := h
            subst hp; subst hrem
            obtain ⟨h1, h2, h3⟩ := ih r p' rem' hs
            cases g with
            | armed =>
                refine ⟨?_, ?_, fun hw => ?_⟩
                · simp [armedGuards]; omega
                · simp [steps]; omega
                · have hw' : wellArmed cont = true := by
                    simpa [wellArmed] using hw
                  obtain ⟨hwp, hwr⟩ := h3 hw'
                  exact ⟨by simpa [wellArmed] using hwp, hwr⟩
            | disarmed =>
                refine ⟨?_, ?_, fun hw => ?_⟩
                · simp [armedGuards]; omega
                · simp [steps]; omega
                · simp [wellArmed] at hw
      | recv r => simp [Session.split] at h
  | Recv ep cont g ih =>
      intro r p rem h
      cases r with
      | ret =>
          simp [Session.split] at h
          obtain ⟨hp, hrem⟩ := h
          subst hp; subst hrem
          refine ⟨?_, ?_, fun hw => ⟨rfl, hw⟩⟩
          · simp [armedGuards]
          · simp [steps]
      | snd r => simp [Session.split] at h
      | recv r =>
          rcases hs : Session.split cont r with _ | ⟨p', rem'⟩
          · simp [Session.split, hs] at h
          · simp [Session.split, hs] at h
            obtain ⟨hp, hrem⟩ := h
            subst hp; subst hrem
            obtain ⟨h1, h2, h3⟩ := ih r p' rem' hs
            cases g with
            | armed =>
                refine ⟨?_, ?_, fun hw => ?_⟩
                · simp [armedGuards]; omega
                · simp [steps]; omega
                · have hw' : wellArmed cont = true := by
                    simpa [wellArmed] using hw
                  obtain ⟨hwp, hwr⟩ := h3 hw'
                  exact ⟨by simpa [wellArmed] using hwp, hwr⟩
            | disarmed =>
                refine ⟨?_, ?_, fun hw => ?_⟩
                · simp [armedGuards]; omega
                · simp [steps]; omega
                · simp [wellArmed] at hw
  | End =>
      intro r p rem h
      cases r with
      | ret =>
          simp [Session.split] at h
          obtain ⟨hp, hrem⟩ := h
          subst hp; subst hrem
          exact ⟨rfl, rfl, fun hw => ⟨rfl, hw⟩⟩
      | snd r => simp [Session.split] at h
      | recv r => simp [Session.split] at h
  | Return =>
      intro r p rem h
      cases r <;> simp [Session.split] at h

/-- C1: the affine guard's destructor raises the fatal affine-violation
failure iff the guard is destroyed while still armed and the context is
not already unwinding; disarming and then destroying raises nothing (the
guard is forgotten, its destructor never runs); destroying an armed guard
while already unwinding raises nothing. -/
theorem panicOnDrop_destructor_spec :
    ∀ (g : GuardState) (panicking : Bool),
      (dropGuard g panicking ≠ [] ↔ g = GuardState.armed ∧ panicking = false)
      ∧ dropGuard (disarm g) panicking = []
      ∧ dropGuard GuardState.armed true = [] := by
  decide

/-- C2: splitting a chain at any prefix length `k ≤ N`, then fully
consuming the borrowed prefix (down to its `Return` marker) and then the
remainder, performs exactly the same transport operations, in the same
order, as consuming the unsplit chain directly. -/
theorem split_then_consume_trace (s : Session) (k : Nat)
    (hchain : isChain s = true) (hk : k ≤ steps s) :
    ∃ p rem, Session.split s (takeReq s k) = some (p, rem) ∧
      endsInRet p = true ∧ trace p ++ trace rem = trace s := by
  induction s generalizing k with
  | Snd ep cont g ih =>
      cases k with
      | zero => exact ⟨Session.Return, Session.Snd ep cont g, rfl, rfl, rfl⟩
      | succ k =>
          have hk' : k ≤ steps cont := by
            simp [steps] at hk; omega
          obtain ⟨p, rem, hsplit, hret, htr⟩ :=
            ih k (by simpa [isChain] using hchain) hk'
          refine ⟨Session.Snd ep p g, rem, ?_, ?_, ?_⟩
          · simp [takeReq, Session.split, hsplit]
          · simpa [endsInRet] using hret
          · simp [trace, htr]
  | Recv ep cont g ih =>
      cases k with
      | zero => exact ⟨Session.Return, Session.Recv ep cont g, rfl, rfl, rfl⟩
      | succ k =>
          have hk' : k ≤ steps cont := by
            simp [steps] at hk; omega
          obtain ⟨p, rem, hsplit, hret, htr⟩ :=
            ih k (by simpa [isChain] using hchain) hk'
          refine ⟨Session.Recv ep p g, rem, ?_, ?_, ?_⟩
          · simp [takeReq, Session.split, hsplit]
          · simpa [endsInRet] using hret
          · simp [trace, htr]
  | End =>
      cases k with
      | zero => exact ⟨Session.Return, Session.End, rfl, rfl, rfl⟩
      | succ k => simp [steps] at hk
  | Return => simp [isChain] at hchain

theorem split_then_consume_trace_witness :
    isChain demoChain = true ∧ 1 ≤ steps demoChain ∧
    ∃ p rem, Session.split demoChain (takeReq demoChain 1) = some (p, rem) ∧
      endsInRet p = true ∧ trace p ++ trace rem = trace demoChain :=
  ⟨by decide, by decide, split_then_consume_trace demoChain 1 (by decide) (by decide)⟩

/-- C3: splitting a `Snd` (resp. `Recv`) step against a
one-step-plus-sub-request shape recurses on the continuation and rebuilds
the prefix node from the original endpoint, the recursive prefix and the
original node's guard; the guard is moved, never duplicated or disarmed,
so armed-guard count and obligation count are both conserved across the
borrowed/remainder pair, and a fully armed session splits into fully
armed parts (exactly one armed guard per outstanding obligation). -/
theorem split_relocates_guard :
    (∀ (ep : Nat) (cont : Session) (g : GuardState) (r : SplitReq) (p rem : Session),
        Session.split cont r = some (p, rem) →
        Session.split (Session.Snd ep cont g) (SplitReq.snd r)
          = some (Session.Snd ep p g, rem)) ∧
    (∀ (ep : Nat) (cont : Session) (g : GuardState) (r : SplitReq) (p rem : Session),
        Session.split cont r = some (p, rem) →
        Session.split (Session.Recv ep cont g) (SplitReq.recv r)
          = some (Session.Recv ep p g, rem)) ∧
    (∀ (s : Session) (r : SplitReq) (p rem : Session),
        Session.split s r = some (p, rem) →
        armedGuards p + armedGuards rem = armedGuards s ∧
        steps p + steps rem = steps s ∧
        (wellArmed s = true → wellArmed p = true ∧ wellArmed rem = true)) := by
  refine ⟨?_, ?_, split_counts_aux⟩
  · intro ep cont g r p rem h
    simp [Session.split, h]
  · intro ep cont g r p rem h
    simp [Session.split, h]

theorem split_relocates_guard_witness :
    Session.split (Session.Recv 1 Session.End GuardState.armed) SplitReq.ret
      = some (Session.Return, Session.Recv 1 Session.End GuardState.armed) ∧
    Session.split demoChain (SplitReq.snd SplitReq.ret)
      = some (Session.Snd 0 Session.Return GuardState.armed,
              Session.Recv 1 Session.End GuardState.armed) :=
  ⟨by decide,
   split_relocates_guard.1 0 (Session.Recv 1 Session.End GuardState.armed)
     GuardState.armed SplitReq.ret Session.Return
     (Session.Recv 1 Session.End GuardState.armed) (by decide)⟩

/-- C5: splitting any `End`, `Snd` or `Recv` value against the
zero-length request yields the inert `Return` marker as the borrowed
value and the original value itself — same endpoint, same continuation,
same still-armed guard — as the remainder; no transport operation is
involved (`split` never touches a channel). -/
theorem zero_split_identity (s : Session) (h : s ≠ Session.Return) :
    Session.split s SplitReq.ret = some (Session.Return, s) := by
  cases s with
  | Snd ep cont g => rfl
  | Recv ep cont g => rfl
  | End => rfl
  | Return => exact absurd rfl h

theorem zero_split_identity_witness :
    demoChain ≠ Session.Return ∧
    Session.split demoChain SplitReq.ret = some (Session.Return, demoChain) :=
  ⟨by decide, zero_split_identity demoChain (by decide)⟩

/-- C8: on a borrowed session (one ending in the `Return` marker) the
scope-restriction operation is the identity at runtime: both
`restrict_to_ref` and `restrict_with_type_info` return the input session
itself — same endpoints, same continuations, same guards — having
performed no transport operation and disarmed no guard, and they never
fail on such input; the restriction is purely a compile-time lifetime
relationship. -/
theorem restrict_runtime_identity (s : Session) (h : endsInRet s = true) :
    restrict_with_type_info s = some s ∧ restrict_to_ref s = some s := by
  have key : ∀ t : Session, endsInRet t = true → restrict_to_ref t = some t := by
    intro t
    induction t with
    | Snd ep cont g ih =>
        intro h'
        simp [restrict_to_ref, ih (by simpa [endsInRet] using h')]
    | Recv ep cont g ih =>
        intro h'
        simp [restrict_to_ref, ih (by simpa [endsInRet] using h')]
    | End => intro h'; simp [endsInRet] at h'
    | Return => intro _; rfl
  exact ⟨key s h, key s h⟩

theorem restrict_runtime_identity_witness :
    endsInRet (Session.Snd 0 Session.Return GuardState.armed) = true ∧
    restrict_with_type_info (Session.Snd 0 Session.Return GuardState.armed)
      = some (Session.Snd 0 Session.Return GuardState.armed) ∧
    restrict_to_ref (Session.Snd 0 Session.Return GuardState.armed)
      = some (Session.Snd 0 Session.Return GuardState.armed) :=
  ⟨by decide,
   (restrict_runtime_identity (Session.Snd 0 Session.Return GuardState.armed)
     (by decide)).1,
   (restrict_runtime_identity (Session.Snd 0 Session.Return GuardState.armed)
     (by decide)).2⟩

/-- C9: discarding a `End` (terminal) or `Return` (borrowed-prefix
marker) value raises no failure in any context: neither constructor
carries an affine guard, so there is no destructor-time check. -/
theorem end_return_discard_free :
    ∀ (panicking : Bool),
      dropSession Session.End panicking = ([], panicking) ∧
      dropSession Session.Return panicking = ([], panicking) ∧
      armedGuards Session.End = 0 ∧ armedGuards Session.Return = 0 := by
  decide

/-- C4: whenever the transport send succeeds, `Snd::send` disarms the
step's guard and returns exactly the continuation the step was
constructed with; whenever the transport receive succeeds, `Recv::recv`
disarms the guard and returns the received value paired with exactly the
stored continuation. -/
theorem send_recv_success {α : Type} (net : Net α) (ep : Nat)
    (cont cont' : Session) (g g' : GuardState) (w v : α) (rest : List α)
    (hopen : (net ep).closed = false) (hbuf : (net ep).buf = v :: rest) :
    Snd.send net ep cont g w
      = SendOut.ok cont GuardState.disarmed
          (updateNet net ep ⟨(net ep).buf ++ [w], false⟩) ∧
    Recv.recv net ep cont' g'
      = RecvOut.ok v cont' GuardState.disarmed (updateNet net ep ⟨rest, false⟩) := by
  constructor
  · simp [Snd.send, Channel.sendVal, hopen, disarm]
  · simp [Recv.recv, Channel.recvVal, hopen, hbuf, disarm]

theorem send_recv_success_witness :
    (netOneNat 0).closed = false ∧ (netOneNat 0).buf = 7 :: [] ∧
    (Snd.send netOneNat 0 Session.End GuardState.armed 5
       = SendOut.ok Session.End GuardState.disarmed
           (updateNet netOneNat 0 ⟨(netOneNat 0).buf ++ [5], false⟩) ∧
     Recv.recv netOneNat 0 Session.End GuardState.armed
       = RecvOut.ok 7 Session.End GuardState.disarmed
           (updateNet netOneNat 0 ⟨[], false⟩)) :=
  ⟨rfl, rfl,
   send_recv_success netOneNat 0 Session.End Session.End GuardState.armed
     GuardState.armed 5 7 [] rfl rfl⟩

/-- C6: if the underlying channel is closed when a send or receive is
attempted, the operation raises the fatal transport-failure condition in
the calling context, performs no retry (the transport is attempted once
and left unchanged), and returns no continuation. -/
theorem closed_channel_fatal {α : Type} (net : Net α) (ep : Nat)
    (cont cont' : Session) (g g' : GuardState) (payload : α)
    (hclosed : (net ep).closed = true) :
    Snd.send net ep cont g payload = SendOut.panicked [transportFailureMsg] g net ∧
    Recv.recv net ep cont' g' = RecvOut.panicked [transportFailureMsg] g' net := by
  constructor
  · simp [Snd.send, Channel.sendVal, hclosed, dropSession_true, dropGuard_true]
  · simp [Recv.recv, Channel.recvVal, hclosed, dropSession_true, dropGuard_true]

theorem closed_channel_fatal_witness :
    (netClosedNat 0).closed = true ∧
    (Snd.send netClosedNat 0 Session.End GuardState.armed 5
       = SendOut.panicked [transportFailureMsg] GuardState.armed netClosedNat ∧
     Recv.recv netClosedNat 0 Session.End GuardState.disarmed
       = RecvOut.panicked [transportFailureMsg] GuardState.disarmed netClosedNat) :=
  ⟨rfl,
   closed_channel_fatal netClosedNat 0 Session.End Session.End GuardState.armed
     GuardState.disarmed 5 rfl⟩

/-- C7: round-trip over one channel of an open, idle transport — a
`Send<T, Terminal>` step built by `new` (so with a freshly armed guard)
sends `v`, then the peer's `Receive<T, Terminal>` step receives: the
receiving side obtains exactly `v`, both sides are left at the terminal
continuation `End`, and both guards end disarmed. -/
theorem round_trip {α : Type} (v : α) :
    Snd.new 0 Session.End = Session.Snd 0 Session.End GuardState.armed ∧
    Recv.new 0 Session.End = Session.Recv 0 Session.End GuardState.armed ∧
    Snd.send (netEmpty α) 0 Session.End GuardState.armed v
      = SendOut.ok Session.End GuardState.disarmed
          (updateNet (netEmpty α) 0 ⟨[v], false⟩) ∧
    Recv.recv (updateNet (netEmpty α) 0 ⟨[v], false⟩) 0 Session.End GuardState.armed
      = RecvOut.ok v Session.End GuardState.disarmed
          (updateNet (updateNet (netEmpty α) 0 ⟨[v], false⟩) 0 ⟨[], false⟩) := by
  refine ⟨rfl, rfl, ?_, ?_⟩
  · simp [Snd.send, Channel.sendVal, netEmpty, disarm]
  · simp [Recv.recv, Channel.recvVal, updateNet, netEmpty, disarm]

/-- C10: the guard is disarmed only after the transport operation has
succeeded, so on a closed channel the step's guard is still armed when
the fatal transport failure starts unwinding; that unwinding destroys the
step's armed guard and every (even fully armed) continuation guard
silently, so the transport failure is the only failure observed. -/
theorem transport_failure_sole {α : Type} (net : Net α) (ep : Nat)
    (cont : Session) (payload : α)
    (hclosed : (net ep).closed = true) (_harmed : wellArmed cont = true) :
    (dropSession cont true).1 = [] ∧
    Snd.send net ep cont GuardState.armed payload
      = SendOut.panicked [transportFailureMsg] GuardState.armed net ∧
    Recv.recv net ep cont GuardState.armed
      = RecvOut.panicked [transportFailureMsg] GuardState.armed net := by
  refine ⟨by simp [dropSession_true], ?_, ?_⟩
  · simp [Snd.send, Channel.sendVal, hclosed, dropSession_true, dropGuard_true]
  · simp [Recv.recv, Channel.recvVal, hclosed, dropSession_true, dropGuard_true]

theorem transport_failure_sole_witness :
    (netClosedNat 0).closed = true ∧
    wellArmed (Session.Recv 1 Session.End GuardState.armed) = true ∧
    ((dropSession (Session.Recv 1 Session.End GuardState.armed) true).1 = [] ∧
     Snd.send netClosedNat 0 (Session.Recv 1 Session.End GuardState.armed)
         GuardState.armed 5
       = SendOut.panicked [transportFailureMsg] GuardState.armed netClosedNat ∧
     Recv.recv netClosedNat 0 (Session.Recv 1 Session.End GuardState.armed)
         GuardState.armed
       = RecvOut.panicked [transportFailureMsg] GuardState.armed netClosedNat) :=
  ⟨rfl, rfl,
   transport_failure_sole netClosedNat 0
     (Session.Recv 1 Session.End GuardState.armed) 5 rfl rfl⟩
